import Mathlib

/-!
Shallow embedding of `apod_desktop.py` (COMP593 final project) and proofs
checking the natural-language specification against it.

Conventions used throughout:
* Python `bytes` values are `List Nat`, each element a byte value `0 ≤ b < 256`
  (where a definition combines bytes into larger words it reduces them `% 256`,
  so every definition is total on all of `List Nat`).
* 32-bit machine words are `Nat` with an explicit `% 2 ^ 32` at every point
  where the source (FIPS 180-4 arithmetic inside `hashlib.sha256`) wraps.
* The SQLite table `apod_images` is a `List ApodImageRow`; the filesystem is a
  partial map `String → Option (List Nat)` from paths to file contents.
-/

/-! ### SHA-256 (embedding of `hashlib.sha256(image_msg).hexdigest()`, FIPS 180-4) -/

/-- Right rotation of a 32-bit word represented as a `Nat` below `2 ^ 32`. -/
def rotr32 (n x : Nat) : Nat :=
  x / 2 ^ n + x % 2 ^ n * 2 ^ (32 - n)

/-- The `Ch` function of FIPS 180-4: `(e ∧ f) ⊕ (¬e ∧ g)` on 32-bit words. -/
def chFn (e f g : Nat) : Nat :=
  Nat.xor (Nat.land e f) (Nat.land (Nat.xor e 4294967295) g)

/-- The `Maj` function of FIPS 180-4: `(a ∧ b) ⊕ (a ∧ c) ⊕ (b ∧ c)`. -/
def majFn (a b c : Nat) : Nat :=
  Nat.xor (Nat.xor (Nat.land a b) (Nat.land a c)) (Nat.land b c)

/-- FIPS 180-4 `Σ₀`: rotations by 2, 13, 22. -/
def bigSigma0 (x : Nat) : Nat :=
  Nat.xor (Nat.xor (rotr32 2 x) (rotr32 13 x)) (rotr32 22 x)

/-- FIPS 180-4 `Σ₁`: rotations by 6, 11, 25. -/
def bigSigma1 (x : Nat) : Nat :=
  Nat.xor (Nat.xor (rotr32 6 x) (rotr32 11 x)) (rotr32 25 x)

/-- FIPS 180-4 `σ₀`: rotations by 7, 18 and shift by 3. -/
def smallSigma0 (x : Nat) : Nat :=
  Nat.xor (Nat.xor (rotr32 7 x) (rotr32 18 x)) (x / 2 ^ 3)

/-- FIPS 180-4 `σ₁`: rotations by 17, 19 and shift by 10. -/
def smallSigma1 (x : Nat) : Nat :=
  Nat.xor (Nat.xor (rotr32 17 x) (rotr32 19 x)) (x / 2 ^ 10)

/-- The 64 SHA-256 round constants `K` (FIPS 180-4 §4.2.2, written in
decimal). -/
def sha256K : List Nat :=
  [1116352408, 1899447441, 3049323471, 3921009573, 961987163, 1508970993,
   2453635748, 2870763221, 3624381080, 310598401, 607225278, 1426881987,
   1925078388, 2162078206, 2614888103, 3248222580, 3835390401, 4022224774,
   264347078, 604807628, 770255983, 1249150122, 1555081692, 1996064986,
   2554220882, 2821834349, 2952996808, 3210313671, 3336571891, 3584528711,
   113926993, 338241895, 666307205, 773529912, 1294757372, 1396182291,
   1695183700, 1986661051, 2177026350, 2456956037, 2730485921, 2820302411,
   3259730800, 3345764771, 3516065817, 3600352804, 4094571909, 275423344,
   430227734, 506948616, 659060556, 883997877, 958139571, 1322822218,
   1537002063, 1747873779, 1955562222, 2024104815, 2227730452, 2361852424,
   2428436474, 2756734187, 3204031479, 3329325298]

/-- The eight 32-bit hash registers of SHA-256. -/
structure Hash8 where
  a : Nat
  b : Nat
  c : Nat
  d : Nat
  e : Nat
  f : Nat
  g : Nat
  h : Nat

/-- The SHA-256 initial hash value `H⁽⁰⁾` (FIPS 180-4 §5.3.3, in decimal). -/
def sha256H0 : Hash8 :=
  ⟨1779033703, 3144134277, 1013904242, 2773480762,
   1359893119, 2600822924, 528734635, 1541459225⟩

/-- Assemble four bytes (big-endian) into one 32-bit word. -/
def bytesToWord (b0 b1 b2 b3 : Nat) : Nat :=
  b0 % 256 * 16777216 + b1 % 256 * 65536 + b2 % 256 * 256 + b3 % 256

/-- Split a byte list into big-endian 32-bit words (trailing bytes that do not
fill a word are dropped; after padding the length is a multiple of 4). -/
def toWords : List Nat → List Nat
  | b0 :: b1 :: b2 :: b3 :: rest => bytesToWord b0 b1 b2 b3 :: toWords rest
  | _ => []

/-- The 8-byte big-endian encoding of a (bit-)length, as used by SHA-256 padding. -/
def lengthBytes (n : Nat) : List Nat :=
  (List.range 8).map (fun i => n / 2 ^ (8 * (7 - i)) % 256)

/-- SHA-256 message padding: append `0x80`, then zero bytes up to 56 mod 64,
then the 64-bit big-endian message length in bits. -/
def padMessage (msg : List Nat) : List Nat :=
  let len := msg.length
  let k := (55 + 64 - len % 64) % 64
  msg ++ [128] ++ List.replicate k 0 ++ lengthBytes (8 * len)

/-- Split a byte list into 64-byte blocks; the first argument is recursion
fuel (each step strips at least one byte, so `x.length` fuel always suffices). -/
def toBlocksGo : Nat → List Nat → List (List Nat)
  | _, [] => []
  | 0, _ :: _ => []
  | fuel + 1, a :: l => List.take 64 (a :: l) :: toBlocksGo fuel (List.drop 64 (a :: l))

/-- Split a byte list into 64-byte blocks. -/
def toBlocks (x : List Nat) : List (List Nat) :=
  toBlocksGo x.length x

/-- Extend a message schedule by `n` further words via
`W t = σ₁ (W (t-2)) + W (t-7) + σ₀ (W (t-15)) + W (t-16) mod 2 ^ 32`. -/
def extendW (w : List Nat) : Nat → List Nat
  | 0 => w
  | n + 1 =>
    let i := w.length
    let next := (smallSigma1 (w.getD (i - 2) 0) + w.getD (i - 7) 0 +
                 smallSigma0 (w.getD (i - 15) 0) + w.getD (i - 16) 0) % 2 ^ 32
    extendW (w ++ [next]) n

/-- The 64-word message schedule of one 64-byte block. -/
def schedule (block : List Nat) : List Nat :=
  extendW (toWords block) 48

/-- One SHA-256 round: `kw` is the pair (schedule word `Wₜ`, constant `Kₜ`). -/
def roundStep (st : Hash8) (kw : Nat × Nat) : Hash8 :=
  let t1 := (st.h + bigSigma1 st.e + chFn st.e st.f st.g + kw.2 + kw.1) % 2 ^ 32
  let t2 := (bigSigma0 st.a + majFn st.a st.b st.c) % 2 ^ 32
  ⟨(t1 + t2) % 2 ^ 32, st.a, st.b, st.c, (st.d + t1) % 2 ^ 32, st.e, st.f, st.g⟩

/-- SHA-256 compression of one 64-byte block into the running hash value. -/
def compress (hs : Hash8) (block : List Nat) : Hash8 :=
  let st := ((schedule block).zip sha256K).foldl roundStep hs
  ⟨(hs.a + st.a) % 2 ^ 32, (hs.b + st.b) % 2 ^ 32,
   (hs.c + st.c) % 2 ^ 32, (hs.d + st.d) % 2 ^ 32,
   (hs.e + st.e) % 2 ^ 32, (hs.f + st.f) % 2 ^ 32,
   (hs.g + st.g) % 2 ^ 32, (hs.h + st.h) % 2 ^ 32⟩

/-- SHA-256 of a byte sequence, as the final eight hash registers. -/
def sha256 (msg : List Nat) : Hash8 :=
  (toBlocks (padMessage msg)).foldl compress sha256H0

/-- SHA-256 of a byte sequence as the list of its eight 32-bit digest words. -/
def sha256Words (msg : List Nat) : List Nat :=
  let r := sha256 msg
  [r.a, r.b, r.c, r.d, r.e, r.f, r.g, r.h]

/-- Lower-case hex character of a nibble (`0`–`9`, `a`–`f`). -/
def hexChar (n : Nat) : Char :=
  if n < 10 then Char.ofNat (48 + n) else Char.ofNat (87 + n)

/-- The eight lower-case hex characters of one 32-bit word, most significant
nibble first, exactly as `hexdigest` renders each word. -/
def wordToHex (w : Nat) : List Char :=
  (List.range 8).map (fun i => hexChar (w / 16 ^ (7 - i) % 16))

/-- Embedding of `hashlib.sha256(msg).hexdigest()`: the 64-character lower-case
hex rendering of the SHA-256 digest. -/
def sha256_hexdigest (msg : List Nat) : String :=
  String.mk (((sha256Words msg).map wordToHex).flatten)

/-! ### Path handling (embedding of `os.path.normpath`, `os.path.basename`,
`os.path.join` — POSIX variants — as called by `get_image_path` and `main`) -/

/-- Split a character list at every occurrence of `sep`, keeping empty
components, exactly like Python's `str.split(sep)`. -/
def splitSep (sep : Char) : List Char → List (List Char)
  | [] => [[]]
  | c :: rest =>
    match splitSep sep rest with
    | [] => [[c]]
    | h :: t => if c = sep then [] :: h :: t else (c :: h) :: t

/-- Embedding of `posixpath.normpath` on character lists: collapse repeated
separators, drop `.` components, resolve `..` against preceding components. -/
def normpathList (p : List Char) : List Char :=
  if p = [] then ['.']
  else
    let initialSlashes : Nat :=
      if p.take 1 = ['/'] then
        if p.take 2 = ['/', '/'] ∧ p.take 3 ≠ ['/', '/', '/'] then 2 else 1
      else 0
    let comps := splitSep '/' p
    let newComps := comps.foldl (fun acc comp =>
      if comp = [] ∨ comp = ['.'] then acc
      else if comp ≠ ['.', '.'] ∨ (initialSlashes = 0 ∧ acc = []) ∨
              acc.getLastD [] = ['.', '.'] then acc ++ [comp]
      else acc.dropLast) []
    let joined := List.replicate initialSlashes '/' ++ List.intercalate ['/'] newComps
    if joined = [] then ['.'] else joined

/-- Embedding of `os.path.normpath` on strings. -/
def normpath (s : String) : String :=
  String.mk (normpathList s.data)

/-- Embedding of `os.path.basename`: everything after the last `/`. -/
def basename (s : String) : String :=
  String.mk ((splitSep '/' s.data).getLastD [])

/-- Embedding of `os.path.join` (POSIX, two arguments). -/
def joinPath (a b : String) : String :=
  if b.data.take 1 = ['/'] then b
  else if a = "" ∨ a.data.getLastD ' ' = '/' then a ++ b
  else a ++ "/" ++ b

/-- Embedding of `get_image_path` (`apod_desktop.py` lines 106–120): the
directory joined with the basename of the normalized URL. The source also
evaluates `os.path.normpath(dir_path)` and discards the result, so it has no
effect on the returned path. -/
def get_image_path (image_url dir_path : String) : String :=
  let new_image_url := basename (normpath image_url)
  joinPath dir_path new_image_url

/-! ### The `apod_images` SQLite database (embedding of `create_image_db`,
`add_image_to_db`, `image_already_in_db`, lines 200–283) -/

/-- One column of a SQLite table schema. `uniqueCol` records whether the DDL
declares any uniqueness constraint (UNIQUE / PRIMARY KEY) on the column. -/
structure SqlColumn where
  name : String
  sqlType : String
  uniqueCol : Bool

/-- The schema created by `create_image_db` (lines 213–218): four TEXT
columns, no constraint of any kind. -/
def apod_images_schema : List SqlColumn :=
  [⟨"date", "TEXT", false⟩, ⟨"full_path", "TEXT", false⟩,
   ⟨"File_size", "TEXT", false⟩, ⟨"SHA_256", "TEXT", false⟩]

/-- One row of the `apod_images` table, with the column names of the source
schema. `File_size` is the Python integer bound to the column by
`add_image_to_db`. -/
structure ApodImageRow where
  date : String
  full_path : String
  File_size : Int
  SHA_256 : String

/-- Embedding of `create_image_db` on the database state at `db_path`:
`CREATE TABLE IF NOT EXISTS` creates an empty table when none exists and
leaves an existing table untouched. -/
def create_image_db (db : Option (List ApodImageRow)) : List ApodImageRow :=
  db.getD []

/-- Embedding of `add_image_to_db` (lines 226–256): a plain `INSERT` appends
one row; the `image_info` tuple (line 247) binds `db_path` — not the APOD
date — to the `date` column. No constraint can reject the row. -/
def add_image_to_db (db : List ApodImageRow)
    (db_path image_path : String) (image_size : Int) (image_sha256 : String) :
    List ApodImageRow :=
  db ++ [⟨db_path, image_path, image_size, image_sha256⟩]

/-- The longest leading run of decimal digits of a character list, as a
number accumulated onto `acc`. -/
def digitsPrefixValAux (acc : Nat) : List Char → Nat
  | c :: rest =>
    if c.isDigit then digitsPrefixValAux (10 * acc + (c.toNat - 48)) rest else acc
  | [] => acc

/-- SQLite's coercion of a TEXT value to a number, restricted to integer
prefixes: an optional sign followed by the longest run of leading digits
(a string with no leading digits coerces to 0). -/
def sqliteTextToInt (s : String) : Int :=
  match s.data with
  | '-' :: rest => -(digitsPrefixValAux 0 rest : Int)
  | '+' :: rest => (digitsPrefixValAux 0 rest : Int)
  | l => (digitsPrefixValAux 0 l : Int)

/-- SQLite truth of a TEXT value, as evaluated by the bare `WHERE SHA_256`
clause: the numeric coercion is nonzero. -/
def sqliteTruthy (s : String) : Bool :=
  sqliteTextToInt s != 0

/-- A dynamically typed Python value, restricted to the two types compared by
`image_already_in_db`: the digest string and the `fetchall()` result, a list
of row tuples of strings. -/
inductive PyVal where
  | str : String → PyVal
  | listOfTuples : List (List String) → PyVal

/-- Python `==` on `PyVal`: values of the two different types compare unequal
(neither `list` nor `str` defines cross-type equality), values of the same
type compare structurally. -/
def pyEq : PyVal → PyVal → Bool
  | PyVal.str a, PyVal.str b => a == b
  | PyVal.listOfTuples a, PyVal.listOfTuples b => a == b
  | _, _ => false

/-- Embedding of `image_already_in_db` (lines 258–283). The query
`SELECT SHA_256 FROM apod_images WHERE SHA_256` filters rows by the SQLite
truthiness of their `SHA_256` text and yields a list of one-element tuples;
the function then tests `results == image_sha256` / `elif results !=
image_sha256` — a Python list compared against a string. -/
def image_already_in_db (db : List ApodImageRow) (image_sha256 : String) : Bool :=
  let results : List (List String) :=
    (db.filter (fun r => sqliteTruthy r.SHA_256)).map (fun r => [r.SHA_256])
  if pyEq (PyVal.listOfTuples results) (PyVal.str image_sha256) then true
  else if !(pyEq (PyVal.listOfTuples results) (PyVal.str image_sha256)) then false
  else false

/-! ### Filesystem and the ingestion step of `main` (lines 48–58, 183–198) -/

/-- The local filesystem as a partial map from paths to file contents. -/
def FileSys : Type := String → Option (List Nat)

/-- Embedding of `save_image_file` (lines 183–198): `open(image_path, 'wb')`
followed by `write` replaces whatever the path previously held. -/
def save_image_file (image_msg : List Nat) (image_path : String) (fs : FileSys) :
    FileSys :=
  fun p => if p = image_path then some image_msg else fs p

/-- The mutable state the ingestion step of `main` acts on: the `apod_images`
table and the filesystem. -/
structure IngestState where
  db : List ApodImageRow
  fs : FileSys

/-- Embedding of the ingestion portion of `main` (lines 48–58): fingerprint
the downloaded bytes, record `image_size = -1 + len(image_msg)`, derive the
local path, and — when `image_already_in_db` is false — save the file and
insert the row. -/
def ingest_step (db_path image_dir_path image_url : String)
    (image_msg : List Nat) (st : IngestState) : IngestState :=
  let image_sha256 := sha256_hexdigest image_msg
  let image_size : Int := -1 + (image_msg.length : Int)
  let image_path := get_image_path image_url image_dir_path
  if !(image_already_in_db st.db image_sha256) then
    { db := add_image_to_db st.db db_path image_path image_size image_sha256,
      fs := save_image_file image_msg image_path st.fs }
  else st

/-! ### Command-line and date handling (embedding of `get_apod_date`,
`get_image_dir_path`, lines 63–104) and the `main` pipeline (lines 30–61) -/

/-- A Python `datetime.date` value (year, month, day). -/
structure PyDate where
  year : Nat
  month : Nat
  day : Nat

/-- Left-pad a string with `'0'` up to a width, as the `%04d` / `%02d`
renderings inside `date.isoformat` do. -/
def zfill (w : Nat) (s : String) : String :=
  String.mk (List.replicate (w - s.length) '0' ++ s.data)

/-- Embedding of `date.isoformat()`: `YYYY-MM-DD` with zero-padded fields. -/
def isoformat (d : PyDate) : String :=
  zfill 4 (toString d.year) ++ "-" ++ zfill 2 (toString d.month) ++ "-" ++
    zfill 2 (toString d.day)

/-- The Gregorian leap-year rule used by Python's `datetime`. -/
def isLeap (y : Nat) : Bool :=
  y % 4 == 0 && (y % 100 != 0 || y % 400 == 0)

/-- Days in a month of a year, as validated by the `datetime` constructor. -/
def daysInMonth (y m : Nat) : Nat :=
  [31, if isLeap y then 29 else 28, 31, 30, 31, 30, 31, 31, 30, 31, 30, 31].getD
    (m - 1) 0

/-- The numeric value of a list of decimal digit characters. -/
def digitsVal (l : List Char) : Nat :=
  l.foldl (fun a c => 10 * a + (c.toNat - 48)) 0

/-- Embedding of `datetime.strptime(s, '%Y-%m-%d')` succeeding (ASCII digits):
the string is `Y-M-D` where `Y` is exactly four digits, `M` and `D` are one or
two digits, and the values form a valid `datetime` (year ≥ 1, month 1–12, day
within the month). `%Y` matches exactly four digits, `%m`/`%d` one or two, the
match must consume the whole string, and the `datetime` constructor then
validates the ranges. -/
def strptime_Ymd_ok (s : String) : Bool :=
  match splitSep '-' s.data with
  | [y, m, d] =>
    y.length == 4 && y.all Char.isDigit &&
    decide (1 ≤ m.length) && m.length ≤ 2 && m.all Char.isDigit &&
    decide (1 ≤ d.length) && d.length ≤ 2 && d.all Char.isDigit &&
    decide (1 ≤ digitsVal y) &&
    decide (1 ≤ digitsVal m) && digitsVal m ≤ 12 &&
    decide (1 ≤ digitsVal d) && digitsVal d ≤ daysInMonth (digitsVal y) (digitsVal m)
  | _ => false

/-- Embedding of `get_apod_date` (lines 82–104): with a third command-line
argument, validate it with `strptime` and abort (`exit`, modelled as
`Except.error`) on failure, otherwise return it unchanged; with no third
argument return `date.today().isoformat()`. -/
def get_apod_date (argv : List String) (today : PyDate) : Except String String :=
  if 3 ≤ argv.length then
    let apod_date := argv.getD 2 ""
    if strptime_Ymd_ok apod_date then Except.ok apod_date
    else Except.error "Script execution aborted"
  else Except.ok (isoformat today)

/-- Embedding of `get_image_dir_path` (lines 63–80): return `argv[1]` when it
names an existing directory, abort otherwise; `isdir` is the
`os.path.isdir` oracle. -/
def get_image_dir_path (argv : List String) (isdir : String → Bool) :
    Except String String :=
  if 2 ≤ argv.length then
    let dir_path := argv.getD 1 ""
    if isdir dir_path then Except.ok dir_path
    else Except.error "Script execution aborted"
  else Except.error "Script execution aborted"

/-- The durable state `main` acts on: the database at `db_path` (`none` when
the file does not yet exist) and the filesystem. -/
structure MainState where
  db : Option (List ApodImageRow)
  fs : FileSys

/-- Embedding of `main` (lines 30–61) up to its durable effects: validate the
directory argument, resolve the APOD date (aborting on an invalid date
argument), create the database if absent, fetch the image URL for the date
(`fetch`), download the bytes (`download`), and run the ingestion step.
The final OS wallpaper call has no effect on this state. -/
def main_model (argv : List String) (today : PyDate) (isdir : String → Bool)
    (fetch : String → String) (download : String → List Nat) (st : MainState) :
    Except String MainState :=
  match get_image_dir_path argv isdir with
  | Except.error e => Except.error e
  | Except.ok image_dir_path =>
    let db_path := joinPath image_dir_path "apod_images.db"
    match get_apod_date argv today with
    | Except.error e => Except.error e
    | Except.ok apod_date =>
      let db0 := create_image_db st.db
      let image_url := fetch apod_date
      let image_msg := download image_url
      let st1 := ingest_step db_path image_dir_path image_url image_msg
        ⟨db0, st.fs⟩
      Except.ok ⟨some st1.db, st1.fs⟩

/-! ### Validation of the SHA-256 embedding against FIPS 180-4 test vectors -/

/-- FIPS 180-4 test vector: SHA-256 of the empty byte sequence. -/
theorem sha256_spec_vector_empty :
    sha256Words [] =
      [3820012610, 2566659092, 2600203464, 2574235940,
       665731556, 1687917388, 2761267483, 2018687061] := by decide

/-- FIPS 180-4 test vector: SHA-256 of the three bytes `"abc"`. -/
theorem sha256_spec_vector_abc :
    sha256Words [97, 98, 99] =
      [3128432319, 2399260650, 1094795486, 1571693091,
       2953011619, 2518121116, 3021012833, 4060091821] := by decide

/-- The hexdigest of the empty byte sequence, as `hashlib` prints it. -/
theorem sha256_hexdigest_empty :
    sha256_hexdigest [] =
      "e3b0c44298fc1c149afbf4c8996fb92427ae41e4649b934ca495991b7852b855" := by
  decide

/-! ### Validation of the `strptime` / `isoformat` embeddings on samples -/

/-- Sample behaviors of the `strptime('%Y-%m-%d')` validity embedding:
zero-padded and unpadded dates parse, month 13, day 31 of April, Feb 29 of a
non-leap year, year 0000, two-digit years and trailing garbage do not. -/
theorem strptime_Ymd_ok_samples :
    strptime_Ymd_ok "2022-03-11" = true ∧ strptime_Ymd_ok "2022-3-5" = true ∧
    strptime_Ymd_ok "2024-02-29" = true ∧ strptime_Ymd_ok "2022-13-01" = false ∧
    strptime_Ymd_ok "2022-04-31" = false ∧ strptime_Ymd_ok "2023-02-29" = false ∧
    strptime_Ymd_ok "0000-01-01" = false ∧ strptime_Ymd_ok "22-01-01" = false ∧
    strptime_Ymd_ok "2022-01-02-03" = false := by decide

/-- An `isoformat` rendering is accepted back by the `strptime` embedding. -/
theorem isoformat_roundtrip_sample :
    isoformat ⟨2022, 3, 11⟩ = "2022-03-11" ∧
    strptime_Ymd_ok (isoformat ⟨2022, 3, 11⟩) = true := by decide

/-! ### Helper lemmas -/

/-- The duplicate check compares the `fetchall()` list against the digest
string; a Python list never equals a string, so the function returns `False`
on every database state and every digest. -/
theorem image_already_in_db_eq_false (db : List ApodImageRow) (s : String) :
    image_already_in_db db s = false := rfl

/-- Every register produced by the compression function is reduced `% 2 ^ 32`. -/
theorem compress_lt (x : Hash8) (b : List Nat) :
    (compress x b).a < 2 ^ 32 ∧ (compress x b).b < 2 ^ 32 ∧
    (compress x b).c < 2 ^ 32 ∧ (compress x b).d < 2 ^ 32 ∧
    (compress x b).e < 2 ^ 32 ∧ (compress x b).f < 2 ^ 32 ∧
    (compress x b).g < 2 ^ 32 ∧ (compress x b).h < 2 ^ 32 := by
  unfold compress
  refine ⟨?_, ?_, ?_, ?_, ?_, ?_, ?_, ?_⟩ <;> exact Nat.mod_lt _ (by norm_num)

/-- All eight registers of a SHA-256 digest are 32-bit values. -/
theorem sha256_components_lt (msg : List Nat) :
    (sha256 msg).a < 2 ^ 32 ∧ (sha256 msg).b < 2 ^ 32 ∧
    (sha256 msg).c < 2 ^ 32 ∧ (sha256 msg).d < 2 ^ 32 ∧
    (sha256 msg).e < 2 ^ 32 ∧ (sha256 msg).f < 2 ^ 32 ∧
    (sha256 msg).g < 2 ^ 32 ∧ (sha256 msg).h < 2 ^ 32 := by
  unfold sha256
  suffices h : ∀ (bs : List (List Nat)) (x : Hash8),
      (x.a < 2 ^ 32 ∧ x.b < 2 ^ 32 ∧ x.c < 2 ^ 32 ∧ x.d < 2 ^ 32 ∧
       x.e < 2 ^ 32 ∧ x.f < 2 ^ 32 ∧ x.g < 2 ^ 32 ∧ x.h < 2 ^ 32) →
      ((bs.foldl compress x).a < 2 ^ 32 ∧ (bs.foldl compress x).b < 2 ^ 32 ∧
       (bs.foldl compress x).c < 2 ^ 32 ∧ (bs.foldl compress x).d < 2 ^ 32 ∧
       (bs.foldl compress x).e < 2 ^ 32 ∧ (bs.foldl compress x).f < 2 ^ 32 ∧
       (bs.foldl compress x).g < 2 ^ 32 ∧ (bs.foldl compress x).h < 2 ^ 32) by
    exact h _ sha256H0 (by decide)
  intro bs
  induction bs with
  | nil => intro x hx; simpa only [List.foldl_nil] using hx
  | cons b bs ih =>
    intro x hx
    simp only [List.foldl_cons]
    exact ih (compress x b) (compress_lt x b)

/-- The directory-argument validator either returns a directory or aborts
with the fixed message. -/
theorem get_image_dir_path_ok_or_abort (argv : List String) (isdir : String → Bool) :
    (∃ d, get_image_dir_path argv isdir = Except.ok d) ∨
    get_image_dir_path argv isdir = Except.error "Script execution aborted" := by
  by_cases h2 : 2 ≤ argv.length
  · by_cases hd : isdir (argv[1]?.getD "") = true
    · exact Or.inl ⟨argv.getD 1 "", by simp [get_image_dir_path, List.getD, h2, hd]⟩
    · refine Or.inr ?_
      rw [Bool.not_eq_true] at hd
      simp [get_image_dir_path, List.getD, h2, hd]
  · exact Or.inr (by simp [get_image_dir_path, h2])

/-- Claim C1 (code bug): the duplicate-existence check should return true iff
a row with exactly that digest exists, but `image_already_in_db` compares the
`fetchall()` list against the digest string and therefore returns `False` on
every database state — in particular on one that does contain the digest. -/
theorem image_already_in_db_misses_existing_digest :
    (∀ (db : List ApodImageRow) (s : String), image_already_in_db db s = false)
  ∧ ([⟨"p", "f", 2, "9abc"⟩] : List ApodImageRow).any
      (fun r => r.SHA_256 == "9abc") = true
  ∧ image_already_in_db [⟨"p", "f", 2, "9abc"⟩] "9abc" = false :=
  ⟨image_already_in_db_eq_false, by decide, by decide⟩

/-- Claim C2 (code bug): after two successful ingestions of the same two-byte
content the catalog holds two rows with the same digest, and the recorded
`File_size` is 1 while the stored file has 2 bytes. -/
theorem ingest_invariant_violated :
    ((ingest_step "dir/apod_images.db" "dir" "http://x/img.jpg" [0, 0]
        (ingest_step "dir/apod_images.db" "dir" "http://x/img.jpg" [0, 0]
          ⟨[], fun _ => none⟩)).db.map (fun r => r.SHA_256)) =
      [sha256_hexdigest [0, 0], sha256_hexdigest [0, 0]]
  ∧ ((ingest_step "dir/apod_images.db" "dir" "http://x/img.jpg" [0, 0]
        (ingest_step "dir/apod_images.db" "dir" "http://x/img.jpg" [0, 0]
          ⟨[], fun _ => none⟩)).db.map (fun r => r.File_size)) = [1, 1]
  ∧ (ingest_step "dir/apod_images.db" "dir" "http://x/img.jpg" [0, 0]
        (ingest_step "dir/apod_images.db" "dir" "http://x/img.jpg" [0, 0]
          ⟨[], fun _ => none⟩)).fs "dir/img.jpg" = some [0, 0] :=
  ⟨rfl, rfl, rfl⟩

/-- Claim C3 (code bug): ingestion is not idempotent — after a first run has
inserted the digest, `image_already_in_db` still answers `false`, so a second
run with the same bytes re-saves the file and inserts a second catalog row. -/
theorem ingest_not_idempotent :
    ((ingest_step "cache/apod_images.db" "cache" "http://y/apod.png" [1]
        ⟨[], fun _ => none⟩).db.map (fun r => r.SHA_256)) = [sha256_hexdigest [1]]
  ∧ image_already_in_db
      (ingest_step "cache/apod_images.db" "cache" "http://y/apod.png" [1]
        ⟨[], fun _ => none⟩).db (sha256_hexdigest [1]) = false
  ∧ (ingest_step "cache/apod_images.db" "cache" "http://y/apod.png" [1]
      (ingest_step "cache/apod_images.db" "cache" "http://y/apod.png" [1]
        ⟨[], fun _ => none⟩)).db.length = 2 :=
  ⟨rfl, rfl, rfl⟩

/-- Claim C4 (code bug): the schema created by `create_image_db` has no
uniqueness constraint on any column, and `add_image_to_db` is a plain INSERT:
inserting a digest that is already present yields a second row with that
digest instead of a `DuplicateDigest` rejection. -/
theorem add_image_to_db_accepts_duplicate_digest :
    (apod_images_schema.all fun c => !c.uniqueCol) = true
  ∧ (add_image_to_db [⟨"db", "f1", 2, "9abc"⟩] "db" "f2" 5 "9abc").countP
      (fun r => r.SHA_256 == "9abc") = 2 := by
  exact ⟨by decide, by decide⟩

/-- Claim C5 (code bug): `main` records `image_size = -1 + len(image_msg)`
(line 49), so the stored `File_size` is one less than the stored file's byte
count, and is `-1` for an empty download. -/
theorem recorded_size_off_by_one :
    ((ingest_step "imgs/apod_images.db" "imgs" "http://z/photo.jpg" [7, 8, 9]
        ⟨[], fun _ => none⟩).db.map (fun r => r.File_size)) = [2]
  ∧ (((ingest_step "imgs/apod_images.db" "imgs" "http://z/photo.jpg" [7, 8, 9]
        ⟨[], fun _ => none⟩).fs "imgs/photo.jpg").getD []).length = 3
  ∧ ((ingest_step "imgs/apod_images.db" "imgs" "http://z/empty.jpg" []
        ⟨[], fun _ => none⟩).db.map (fun r => r.File_size)) = [-1] :=
  ⟨rfl, rfl, rfl⟩

/-- Claim C6 (code bug): `add_image_to_db` binds `db_path` — not the APOD
date — to the `date` column (line 247), so every inserted row carries the
database path where the observation date should be. -/
theorem date_column_stores_db_path :
    (∀ (db : List ApodImageRow) (db_path image_path : String)
        (image_size : Int) (image_sha256 : String),
      (add_image_to_db db db_path image_path image_size image_sha256).getLast? =
        some ⟨db_path, image_path, image_size, image_sha256⟩)
  ∧ ((ingest_step "dir2/apod_images.db" "dir2" "http://q/a.jpg" [5]
        ⟨[], fun _ => none⟩).db.map (fun r => r.date)) = ["dir2/apod_images.db"] :=
  ⟨fun db p ip sz h => by simp [add_image_to_db], rfl⟩

/-- Claim C7 (code bug): when the derived file name already exists on disk
with different content, `save_image_file` opens it with mode `wb` and
truncates it — the ingestion step replaces the unrelated pre-existing bytes
instead of disambiguating the name. -/
theorem save_image_file_overwrites_existing :
    (fun p => if p = "pics/img.jpg" then some [1, 2, 3] else none : FileSys)
      "pics/img.jpg" = some [1, 2, 3]
  ∧ (ingest_step "pics/apod_images.db" "pics" "http://a/img.jpg" [9]
      ⟨[], fun p => if p = "pics/img.jpg" then some [1, 2, 3] else none⟩).fs
      "pics/img.jpg" = some [9] :=
  ⟨rfl, rfl⟩

/-- Claim C8 (confirmed): the fingerprint `hashlib.sha256(·).hexdigest()` is a
total deterministic function from byte sequences to 256-bit digests: eight
32-bit words rendered as 64 hex characters, defined for every byte sequence
including the empty one, and identical inputs yield identical digests. -/
theorem fingerprint_deterministic_total (msg : List Nat) :
    (sha256Words msg).length = 8
  ∧ (∀ w ∈ sha256Words msg, w < 2 ^ 32)
  ∧ (sha256_hexdigest msg).length = 64
  ∧ ∀ msg2, msg2 = msg → sha256_hexdigest msg2 = sha256_hexdigest msg := by
  refine ⟨rfl, ?_, ?_, ?_⟩
  · intro w hw
    obtain ⟨h1, h2, h3, h4, h5, h6, h7, h8⟩ := sha256_components_lt msg
    simp only [sha256Words, List.mem_cons, List.not_mem_nil, or_false] at hw
    rcases hw with rfl | rfl | rfl | rfl | rfl | rfl | rfl | rfl <;> assumption
  · show (((sha256Words msg).map wordToHex).flatten).length = 64
    simp [sha256Words, wordToHex]
  · intro msg2 h
    rw [h]

/-- Witness for C8 at the empty byte sequence. -/
theorem fingerprint_deterministic_total_witness :
    (sha256_hexdigest []).length = 64
  ∧ (sha256Words []).getD 0 0 < 2 ^ 32
  ∧ sha256_hexdigest [] = sha256_hexdigest [] :=
  ⟨(fingerprint_deterministic_total []).2.2.1,
   (fingerprint_deterministic_total []).2.1 _ (by decide),
   (fingerprint_deterministic_total []).2.2.2 [] rfl⟩

/-- Claim C9 (confirmed): with no date argument `get_apod_date` returns
today's date in ISO `YYYY-MM-DD` form; a supplied date that `strptime`
accepts is returned unchanged; a supplied date that `strptime` rejects makes
the whole `main` pipeline abort, before any download or catalog access, for
every fetch/download oracle and every initial state. -/
theorem get_apod_date_spec (argv : List String) (today : PyDate)
    (isdir : String → Bool) (fetch : String → String)
    (download : String → List Nat) (st : MainState) :
    (argv.length < 3 → get_apod_date argv today = Except.ok (isoformat today))
  ∧ (3 ≤ argv.length → strptime_Ymd_ok (argv.getD 2 "") = true →
      get_apod_date argv today = Except.ok (argv.getD 2 ""))
  ∧ (3 ≤ argv.length → strptime_Ymd_ok (argv.getD 2 "") = false →
      main_model argv today isdir fetch download st =
        Except.error "Script execution aborted") := by
  refine ⟨?_, ?_, ?_⟩
  · intro h
    rw [get_apod_date, if_neg (by omega)]
  · intro h3 hv
    simp only [get_apod_date, if_pos h3, hv, if_true]
  · intro h3 hv
    have habort : get_apod_date argv today = Except.error "Script execution aborted" := by
      simp only [get_apod_date, if_pos h3, hv, Bool.false_eq_true, if_false]
    rcases get_image_dir_path_ok_or_abort argv isdir with ⟨d, hd⟩ | hd
    · rw [main_model, hd, habort]
    · rw [main_model, hd]

/-- Witness for C9: the three branches at concrete command lines. -/
theorem get_apod_date_spec_witness :
    get_apod_date ["apod_desktop.py", "images"] ⟨2022, 3, 11⟩ =
      Except.ok (isoformat ⟨2022, 3, 11⟩)
  ∧ get_apod_date ["apod_desktop.py", "images", "2022-03-11"] ⟨2022, 3, 11⟩ =
      Except.ok "2022-03-11"
  ∧ main_model ["apod_desktop.py", "images", "2022-13-01"] ⟨2022, 3, 11⟩
      (fun _ => true) (fun _ => "") (fun _ => []) ⟨none, fun _ => none⟩ =
      Except.error "Script execution aborted" :=
  ⟨(get_apod_date_spec ["apod_desktop.py", "images"] ⟨2022, 3, 11⟩
      (fun _ => true) (fun _ => "") (fun _ => []) ⟨none, fun _ => none⟩).1
      (by decide),
   (get_apod_date_spec ["apod_desktop.py", "images", "2022-03-11"] ⟨2022, 3, 11⟩
      (fun _ => true) (fun _ => "") (fun _ => []) ⟨none, fun _ => none⟩).2.1
      (by decide) (by decide),
   (get_apod_date_spec ["apod_desktop.py", "images", "2022-13-01"] ⟨2022, 3, 11⟩
      (fun _ => true) (fun _ => "") (fun _ => []) ⟨none, fun _ => none⟩).2.2
      (by decide) (by decide)⟩

/-- Claim C10 (confirmed): `get_image_path` is a pure function of the URL and
the directory only — it is the directory joined with the basename of the
normalized URL — so two URLs with the same normalized basename map to the
same local path, whatever date, bytes or directory contents are in play. -/
theorem get_image_path_pure (url1 url2 dir : String) :
    get_image_path url1 dir = joinPath dir (basename (normpath url1))
  ∧ (basename (normpath url1) = basename (normpath url2) →
      get_image_path url1 dir = get_image_path url2 dir) := by
  refine ⟨rfl, ?_⟩
  intro h
  unfold get_image_path
  rw [h]

/-- Witness for C10: two distinct URLs sharing the basename `img.jpg` map to
the same path in the `images` directory. -/
theorem get_image_path_pure_witness :
    get_image_path "https://apod.nasa.gov/apod/image/2203/img.jpg" "images" =
      get_image_path "http://mirror.example/img.jpg" "images" :=
  (get_image_path_pure "https://apod.nasa.gov/apod/image/2203/img.jpg"
    "http://mirror.example/img.jpg" "images").2 (by decide)
